import Mathlib

/-!
Verification of the siga-studio server and tool-panel logic.

The development shallowly embeds the Express server (`server.js`) and the
React tool panel (`ToolPanel.jsx`, `ImageEditor.jsx`).  Filesystem, network
and storage effects are modelled by environments of explicitly fallible
operations (`Except`/`Option` results); handlers are pure functions from an
environment to an HTTP response together with a trace of the external calls
they performed.
-/

/-! ## Filesystem cleanup (`cleanupOldFiles` in server.js) -/

/-- A directory entry as seen by `readdir` + `stat`: its name and its change
time in milliseconds (`stats.ctimeMs`). -/
structure FileInfo where
  name : String
  ctimeMs : Int
deriving DecidableEq, Repr

/-- Fault model for the filesystem operations used by the sweep: each
operation either succeeds (`none`) or throws with a message (`some e`). -/
structure FSEnv where
  readdirErr : Option String
  statErr : String → Option String
  unlinkErr : String → Option String

/-- `60 * 60 * 1000`: one hour in milliseconds, as in server.js. -/
def oneHourMs : Int := 60 * 60 * 1000

/-- The `for (const file of files)` loop body of `cleanupOldFiles`: stat each
file and unlink it when `stats.ctimeMs < oneHourAgo`.  A thrown error aborts
the loop; the error value carries the files still present (deletions already
performed persist, the failing file and the unprocessed rest remain). -/
def cleanupLoop (env : FSEnv) (oneHourAgo : Int) :
    List FileInfo → Except (String × List FileInfo) (List FileInfo)
  | [] => .ok []
  | f :: rest =>
    match env.statErr f.name with
    | some e => .error (e, f :: rest)
    | none =>
      if f.ctimeMs < oneHourAgo then
        match env.unlinkErr f.name with
        | some e => .error (e, f :: rest)
        | none => cleanupLoop env oneHourAgo rest
      else
        match cleanupLoop env oneHourAgo rest with
        | .error (e, remaining) => .error (e, f :: remaining)
        | .ok kept => .ok (f :: kept)

/-- The `try` block of `cleanupOldFiles`: read the directory, compute
`oneHourAgo = now - 60*60*1000` once, then run the loop.  Errors propagate. -/
def cleanupTry (env : FSEnv) (now : Int) (files : List FileInfo) :
    Except (String × List FileInfo) (List FileInfo) :=
  match env.readdirErr with
  | some e => .error (e, files)
  | none => cleanupLoop env (now - oneHourMs) files

/-- `cleanupOldFiles`: the `try` block wrapped in the `catch` that logs the
error (`console.error("Cleanup error:", error)`).  Returns the files left in
the directory and the logged error, if any. -/
def cleanupOldFiles (env : FSEnv) (now : Int) (files : List FileInfo) :
    List FileInfo × Option String :=
  match cleanupTry env now files with
  | .ok kept => (kept, none)
  | .error (e, remaining) => (remaining, some e)

/-! ## Cleanup scheduling (`setInterval(cleanupOldFiles, 60 * 60 * 1000)`) -/

/-- The interval passed to `setInterval` in server.js: `60 * 60 * 1000`. -/
def cleanupIntervalMs : Nat := 60 * 60 * 1000

/-- Scheduled start of the `n`-th sweep (0-indexed), modelling Node's
`setInterval` semantics: the callback first fires one interval after
registration and then again every interval. -/
def scheduledSweepTime (start n : Nat) : Nat :=
  start + (n + 1) * cleanupIntervalMs

/-! ## Theorems about the cleanup sweep -/

/-- When no filesystem operation fails, the loop keeps exactly the files with
`ctimeMs` at or above the threshold. -/
theorem cleanupLoop_no_errors (env : FSEnv) (t : Int)
    (h2 : ∀ n, env.statErr n = none) (h3 : ∀ n, env.unlinkErr n = none)
    (files : List FileInfo) :
    cleanupLoop env t files = .ok (files.filter fun f => decide (t ≤ f.ctimeMs)) := by
  induction files with
  | nil => rfl
  | cons f rest ih =>
    simp only [cleanupLoop, h2 f.name]
    by_cases h : f.ctimeMs < t
    · rw [if_pos h, h3 f.name, ih]
      have hd : (decide (t ≤ f.ctimeMs)) = false := by
        simp [Int.not_le.mpr h]
      simp [List.filter_cons, hd]
    · rw [if_neg h, ih]
      have hd : (decide (t ≤ f.ctimeMs)) = true := by
        simp [Int.not_lt.mp h]
      simp [List.filter_cons, hd]

/-- Claim C1: when a sweep runs over the uploads directory (no filesystem
errors), `cleanupOldFiles` deletes a file iff its change time `ctimeMs` is
more than one hour before the sweep start `now`, i.e. `ctimeMs < now -
oneHourMs`; every file at or newer than that threshold is kept. -/
theorem cleanupOldFiles_deletes_iff_older_than_one_hour
    (env : FSEnv) (now : Int) (files : List FileInfo)
    (h1 : env.readdirErr = none)
    (h2 : ∀ n, env.statErr n = none) (h3 : ∀ n, env.unlinkErr n = none) :
    cleanupOldFiles env now files =
      (files.filter fun f => decide (now - oneHourMs ≤ f.ctimeMs), none) ∧
    ∀ f ∈ files,
      (f ∉ (cleanupOldFiles env now files).1 ↔ f.ctimeMs < now - oneHourMs) := by
  have hl := cleanupLoop_no_errors env (now - oneHourMs) h2 h3 files
  have hmain : cleanupOldFiles env now files =
      (files.filter fun f => decide (now - oneHourMs ≤ f.ctimeMs), none) := by
    unfold cleanupOldFiles cleanupTry
    rw [h1, hl]
  refine ⟨hmain, ?_⟩
  intro f hf
  rw [hmain]
  simp only [List.mem_filter, hf, true_and, decide_eq_true_eq, Int.not_le]

/-- A fault-free filesystem environment. -/
def fsEnvOk : FSEnv :=
  { readdirErr := none, statErr := fun _ => none, unlinkErr := fun _ => none }

/-- Witness for C1: at sweep time 7 200 000 ms, the file with change time 0
(more than one hour old) is deleted and the file with change time 7 000 000
(within the hour) is kept. -/
theorem cleanupOldFiles_deletes_iff_older_than_one_hour_witness :
    (⟨"old.webp", (0 : Int)⟩ : FileInfo) ∉
      (cleanupOldFiles fsEnvOk 7200000
        [⟨"old.webp", 0⟩, ⟨"new.webp", 7000000⟩]).1 ∧
    (⟨"new.webp", (7000000 : Int)⟩ : FileInfo) ∈
      (cleanupOldFiles fsEnvOk 7200000
        [⟨"old.webp", 0⟩, ⟨"new.webp", 7000000⟩]).1 := by
  have h := cleanupOldFiles_deletes_iff_older_than_one_hour fsEnvOk 7200000
    [⟨"old.webp", 0⟩, ⟨"new.webp", 7000000⟩] rfl (fun _ => rfl) (fun _ => rfl)
  constructor
  · exact (h.2 ⟨"old.webp", 0⟩ (by simp)).mpr (by decide)
  · rw [h.1]
    decide

/-- Claim C8: `cleanupOldFiles` never propagates an exception: whatever the
`try` block does — succeed, or throw while listing, stat-ing or unlinking —
the function returns normally, with the thrown message merely logged. -/
theorem cleanupOldFiles_catches_all_errors
    (env : FSEnv) (now : Int) (files : List FileInfo) :
    (∀ e remaining, cleanupTry env now files = .error (e, remaining) →
        cleanupOldFiles env now files = (remaining, some e)) ∧
    (∀ kept, cleanupTry env now files = .ok kept →
        cleanupOldFiles env now files = (kept, none)) := by
  constructor
  · intro e remaining h
    unfold cleanupOldFiles
    rw [h]
  · intro kept h
    unfold cleanupOldFiles
    rw [h]

/-- An environment whose `stat` throws on one file. -/
def fsEnvStatFails : FSEnv :=
  { readdirErr := none
  , statErr := fun n => if n = "stale.webp" then some "EACCES" else none
  , unlinkErr := fun _ => none }

/-- Witness for C8: with a throwing `stat`, the sweep still returns normally,
leaving the file in place and logging the error. -/
theorem cleanupOldFiles_catches_all_errors_witness :
    cleanupOldFiles fsEnvStatFails 7200000 [⟨"stale.webp", 0⟩] =
      ([⟨"stale.webp", 0⟩], some "EACCES") :=
  (cleanupOldFiles_catches_all_errors fsEnvStatFails 7200000
    [⟨"stale.webp", 0⟩]).1 "EACCES" [⟨"stale.webp", 0⟩] rfl

/-- Claim C6: the cleanup sweep is periodic: consecutive scheduled sweeps are
exactly one hour (3 600 000 ms) apart, and after every sweep a strictly later
one is scheduled. -/
theorem cleanup_sweep_periodic (start n : Nat) :
    scheduledSweepTime start n < scheduledSweepTime start (n + 1) ∧
    scheduledSweepTime start (n + 1) = scheduledSweepTime start n + cleanupIntervalMs ∧
    cleanupIntervalMs = 3600000 := by
  refine ⟨?_, ?_, rfl⟩ <;>
    simp only [scheduledSweepTime, cleanupIntervalMs] <;> omega

/-! ## HTTP responses -/

/-- An Express response: status code and a typed body.  `res.json(b)` is
status 200 with body `b`; `res.status(500).json(b)` is status 500. -/
structure HttpResponse (β : Type) where
  status : Nat
  body : β
deriving DecidableEq, Repr

/-- JavaScript truthiness for an optional string field of a request or
response body: `undefined`/`null` and `""` are falsy. -/
def truthyStr : Option String → Option String
  | none => none
  | some s => if s = "" then none else some s

/-! ## `GET /token` (server.js) -/

/-- Body of the `/token` response: either the realtime API's JSON forwarded
unchanged, or the catch branch's `{ error: "Failed to generate token" }`. -/
inductive TokenBody (α : Type) where
  | forwarded (data : α)
  | failed (msg : String)
deriving DecidableEq, Repr

/-- The `GET /token` handler.  `apiResult` is the outcome of
`fetch("https://api.openai.com/v1/realtime/sessions", ...)` followed by
`response.json()`: the parsed JSON on success, or the thrown error. -/
def tokenHandler {α : Type} (apiResult : Except String α) :
    HttpResponse (TokenBody α) :=
  match apiResult with
  | .ok data => ⟨200, .forwarded data⟩
  | .error _ => ⟨500, .failed "Failed to generate token"⟩

/-- Claim C5: `/token` forwards the realtime API's JSON body unchanged, and
responds 500 with `{ error: "Failed to generate token" }` iff the forwarding
or parsing threw. -/
theorem token_forwards_json_or_500 {α : Type} (apiResult : Except String α) :
    (∀ d, apiResult = .ok d → tokenHandler apiResult = ⟨200, .forwarded d⟩) ∧
    (tokenHandler apiResult = ⟨500, .failed "Failed to generate token"⟩ ↔
      ∃ e, apiResult = .error e) := by
  constructor
  · intro d h
    rw [h]
    rfl
  · constructor
    · intro h
      cases apiResult with
      | ok d => simp [tokenHandler] at h
      | error e => exact ⟨e, rfl⟩
    · rintro ⟨e, rfl⟩
      rfl

/-- Witness for C5: a successful call is forwarded with status 200, and the
error case hits the iff at a concrete thrown error. -/
theorem token_forwards_json_or_500_witness :
    tokenHandler (.ok (42 : Nat)) = ⟨200, .forwarded 42⟩ ∧
    tokenHandler (α := Nat) (.error "ECONNRESET") =
      ⟨500, .failed "Failed to generate token"⟩ :=
  ⟨(token_forwards_json_or_500 (.ok 42)).1 42 rfl,
   (token_forwards_json_or_500 (α := Nat) (.error "ECONNRESET")).2.mpr
     ⟨"ECONNRESET", rfl⟩⟩

/-! ## `POST /generate-image` (server.js) -/

/-- Body of the `/generate-image` response: on success a JSON array of
objects with a `url` field (`res.json([{ url: publicUrl }])`), on the catch
branch `{ error: "Failed to generate image" }`. -/
inductive GenImageBody where
  | urls (items : List String)
  | failed (msg : String)
deriving DecidableEq, Repr

/-- Environment of the `/generate-image` handler: the awaited result of
`replicate.run` (an array of output URLs), the `fetch`+`arrayBuffer` of an
image URL, the Supabase upload outcome per bucket/filename, the Supabase
public URL per bucket/filename, and `Date.now()`. -/
structure GenEnv where
  replicateRun : Except String (List String)
  fetchBuf : String → Except String String
  uploadErr : String → String → Option String
  publicUrl : String → String → String
  timestamp : Nat

/-- `` `generated_${timestamp}.webp` `` -/
def genFilename (ts : Nat) : String :=
  "generated_" ++ toString ts ++ ".webp"

/-- Trace of external effects of one `/generate-image` request: the URLs
fetched and the uploads (bucket, filename, content) attempted. -/
structure GenTrace where
  fetched : List String
  uploads : List (String × String × String)
deriving DecidableEq, Repr

/-- The `POST /generate-image` handler: run the model, take `output[0]`,
fetch and buffer it, upload the buffer as `generated_<ts>.webp` to the
`images` bucket (throwing on upload error), and answer with the bucket's
public URL for that filename.  Any throw lands in the catch branch. -/
def generateImageHandler (env : GenEnv) :
    HttpResponse GenImageBody × GenTrace :=
  match env.replicateRun with
  | .error _ => (⟨500, .failed "Failed to generate image"⟩, ⟨[], []⟩)
  | .ok output =>
    match output.head? with
    | none => (⟨500, .failed "Failed to generate image"⟩, ⟨[], []⟩)
    | some imageUrl =>
      match env.fetchBuf imageUrl with
      | .error _ =>
        (⟨500, .failed "Failed to generate image"⟩, ⟨[imageUrl], []⟩)
      | .ok imageBuffer =>
        let filename := genFilename env.timestamp
        match env.uploadErr "images" filename with
        | some _ =>
          (⟨500, .failed "Failed to generate image"⟩,
           ⟨[imageUrl], [("images", filename, imageBuffer)]⟩)
        | none =>
          (⟨200, .urls [env.publicUrl "images" filename]⟩,
           ⟨[imageUrl], [("images", filename, imageBuffer)]⟩)

/-- Claim C2: on a successful `/generate-image` request the handler fetches
the first URL of the model output, uploads that buffer to the `images`
bucket as `generated_<timestamp>.webp`, and responds with a one-element
array holding the bucket's public URL for that filename — which differs
from the generator's URL whenever the public URL does. -/
theorem generate_image_success_response (env : GenEnv)
    (output : List String) (firstUrl buf : String)
    (hrun : env.replicateRun = .ok output)
    (hfirst : output.head? = some firstUrl)
    (hfetch : env.fetchBuf firstUrl = .ok buf)
    (hup : env.uploadErr "images" (genFilename env.timestamp) = none) :
    generateImageHandler env =
      (⟨200, .urls [env.publicUrl "images" (genFilename env.timestamp)]⟩,
       ⟨[firstUrl], [("images", genFilename env.timestamp, buf)]⟩) ∧
    (env.publicUrl "images" (genFilename env.timestamp) ≠ firstUrl →
      ∀ u ∈ [env.publicUrl "images" (genFilename env.timestamp)], u ≠ firstUrl) := by
  constructor
  · simp only [generateImageHandler, hrun, hfirst, hfetch, hup]
  · intro hne u hu
    simp only [List.mem_singleton] at hu
    rw [hu]
    exact hne

/-- A concrete `/generate-image` environment for the witness. -/
def genEnvW : GenEnv :=
  { replicateRun := .ok ["https://replicate.delivery/out0.webp"]
  , fetchBuf := fun u => .ok ("bytes:" ++ u)
  , uploadErr := fun _ _ => none
  , publicUrl := fun bucket filename =>
      "https://supabase.example/storage/v1/object/public/" ++ bucket ++ "/" ++ filename
  , timestamp := 1700000000000 }

/-- Witness for C2 at a concrete environment. -/
theorem generate_image_success_response_witness :
    generateImageHandler genEnvW =
      (⟨200, .urls ["https://supabase.example/storage/v1/object/public/images/generated_1700000000000.webp"]⟩,
       ⟨["https://replicate.delivery/out0.webp"],
        [("images", "generated_1700000000000.webp",
          "bytes:https://replicate.delivery/out0.webp")]⟩) :=
  (generate_image_success_response genEnvW
    ["https://replicate.delivery/out0.webp"]
    "https://replicate.delivery/out0.webp"
    "bytes:https://replicate.delivery/out0.webp"
    rfl rfl rfl rfl).1

/-! ## `POST /get-segments` (server.js) -/

/-- Body of the `/get-segments` response: on success the re-uploaded mask
URLs (`res.json({ combined_mask, individual_masks })`), on the catch branch
`{ error: "Failed to analyze image segments", details }`. -/
inductive SegBody where
  | result (combinedMask : String) (individualMasks : List String)
  | failed (msg : String) (details : String)
deriving DecidableEq, Repr

/-- The Segmind API's `response.data`: an optional `combined_mask` URL and an
optional `masks` array of URLs. -/
structure SegmindData where
  combinedMask : Option String
  masks : Option (List String)
deriving DecidableEq, Repr

/-- Environment of the `/get-segments` handler: the request-body fields, the
axios download used by `imageUrlToBase64`, the Segmind call (prompt and
image to `response.data`), `fetch`+`arrayBuffer` of a mask URL, Supabase
upload outcome and public URL per bucket/filename, and `Date.now()`. -/
structure SegEnv where
  currentImageUrl : Option String
  prompt : Option String
  fetchImage : String → Except String String
  segmind : String → String → Except String SegmindData
  fetchBuf : String → Except String String
  uploadErr : String → String → Option String
  publicUrl : String → String → String
  timestamp : Nat

/-- `imageUrlToBase64`: axios download of the image, re-thrown as
`Failed to fetch image: <message>` on error. -/
def imageUrlToBase64 (env : SegEnv) (imageUrl : String) : Except String String :=
  match env.fetchImage imageUrl with
  | .ok b => .ok b
  | .error e => .error ("Failed to fetch image: " ++ e)

/-- `` `mask_combined_${timestamp}.png` `` -/
def combinedFilename (ts : Nat) : String :=
  "mask_combined_" ++ toString ts ++ ".png"

/-- `` `mask_individual_${timestamp}_${index}.png` `` -/
def individualFilename (ts i : Nat) : String :=
  "mask_individual_" ++ toString ts ++ "_" ++ toString i ++ ".png"

/-- Trace of external effects of one `/get-segments` request: axios image
downloads, the prompt sent to Segmind (if the call was made), mask-buffer
fetches, and uploads (bucket, filename, content). -/
structure SegTrace where
  imageFetches : List String
  segmindPrompt : Option String
  bufFetches : List String
  uploads : List (String × String × String)
deriving DecidableEq, Repr

/-- The trace of a request that performed no external call. -/
def emptySegTrace : SegTrace := ⟨[], none, [], []⟩

/-- The 500 response of the `/get-segments` catch branch. -/
def segFailure (details : String) : HttpResponse SegBody :=
  ⟨500, .failed "Failed to analyze image segments" details⟩

/-- The per-mask body of the `Promise.all((response.data.masks || []).map
(async (maskUrl, index) => ...))`: fetch each mask, upload it as
`mask_individual_<ts>_<index>.png` to the `masks` bucket, and collect its
public URL.  Returns the public URLs, the fetched URLs and the uploads; a
rejection carries only the thrown message (the response is all the caller
observes of a rejected `Promise.all`). -/
def processMasks (env : SegEnv) : Nat → List String →
    Except String (List String × List String × List (String × String × String))
  | _, [] => .ok ([], [], [])
  | i, maskUrl :: rest =>
    match env.fetchBuf maskUrl with
    | .error e => .error e
    | .ok buf =>
      match env.uploadErr "masks" (individualFilename env.timestamp i) with
      | some e => .error e
      | none =>
        match processMasks env (i + 1) rest with
        | .error e => .error e
        | .ok (urls, fetches, ups) =>
          .ok (env.publicUrl "masks" (individualFilename env.timestamp i) :: urls,
               maskUrl :: fetches,
               ("masks", individualFilename env.timestamp i, buf) :: ups)

/-- The `POST /get-segments` handler: require a truthy `currentImageUrl`,
download and base64 the image, call Segmind with `prompt || "object"`,
require a truthy `combined_mask`, re-upload the combined mask and every
individual mask to the `masks` bucket, and answer with the buckets' public
URLs.  Any throw lands in the catch branch (500 with the message as
`details`). -/
def getSegmentsHandler (env : SegEnv) : HttpResponse SegBody × SegTrace :=
  match truthyStr env.currentImageUrl with
  | none => (segFailure "No image URL provided", emptySegTrace)
  | some imageUrl =>
    match imageUrlToBase64 env imageUrl with
    | .error e => (segFailure e, { emptySegTrace with imageFetches := [imageUrl] })
    | .ok imageBase64 =>
      let segmentPrompt := (truthyStr env.prompt).getD "object"
      match env.segmind segmentPrompt imageBase64 with
      | .error e =>
        (segFailure e,
         { emptySegTrace with
             imageFetches := [imageUrl], segmindPrompt := some segmentPrompt })
      | .ok data =>
        match truthyStr data.combinedMask with
        | none =>
          (segFailure "Invalid response from Segmind API",
           { emptySegTrace with
               imageFetches := [imageUrl], segmindPrompt := some segmentPrompt })
        | some combinedMaskSrc =>
          match env.fetchBuf combinedMaskSrc with
          | .error e =>
            (segFailure e,
             { imageFetches := [imageUrl], segmindPrompt := some segmentPrompt
             , bufFetches := [combinedMaskSrc], uploads := [] })
          | .ok combinedBuf =>
            match env.uploadErr "masks" (combinedFilename env.timestamp) with
            | some e =>
              (segFailure e,
               { imageFetches := [imageUrl], segmindPrompt := some segmentPrompt
               , bufFetches := [combinedMaskSrc]
               , uploads := [("masks", combinedFilename env.timestamp, combinedBuf)] })
            | none =>
              match processMasks env 0 (data.masks.getD []) with
              | .error e =>
                (segFailure e,
                 { imageFetches := [imageUrl], segmindPrompt := some segmentPrompt
                 , bufFetches := [combinedMaskSrc]
                 , uploads := [("masks", combinedFilename env.timestamp, combinedBuf)] })
              | .ok (urls, fetches, ups) =>
                (⟨200, .result (env.publicUrl "masks" (combinedFilename env.timestamp)) urls⟩,
                 { imageFetches := [imageUrl], segmindPrompt := some segmentPrompt
                 , bufFetches := combinedMaskSrc :: fetches
                 , uploads := ("masks", combinedFilename env.timestamp, combinedBuf) :: ups })

/-- When every mask fetch and upload succeeds, `processMasks` returns one
public URL per mask, in order, with matching `masks`-bucket uploads. -/
theorem processMasks_all_ok (env : SegEnv)
    (hbuf : ∀ u, ∃ b, env.fetchBuf u = .ok b)
    (hup : ∀ b f, env.uploadErr b f = none) :
    ∀ (ms : List String) (i : Nat), ∃ ups,
      processMasks env i ms =
        .ok ((List.range ms.length).map
               (fun j => env.publicUrl "masks" (individualFilename env.timestamp (i + j))),
             ms, ups) ∧
      ups.map (fun u => (u.1, u.2.1)) =
        (List.range ms.length).map
          (fun j => ("masks", individualFilename env.timestamp (i + j))) := by
  intro ms
  induction ms with
  | nil => exact fun i => ⟨[], rfl, rfl⟩
  | cons m rest ih =>
    intro i
    obtain ⟨b, hb⟩ := hbuf m
    obtain ⟨ups, hpm, hups⟩ := ih (i + 1)
    refine ⟨("masks", individualFilename env.timestamp i, b) :: ups, ?_, ?_⟩
    · simp only [processMasks, hb, hup, hpm, List.length_cons,
        List.range_succ_eq_map, List.map_cons, List.map_map, Nat.add_zero]
      refine congrArg Except.ok ?_
      refine congrArg (fun l => (_ :: l, m :: rest, _ :: ups)) ?_
      refine congrArg (fun g => List.map g (List.range rest.length)) ?_
      funext j
      have hj : i + (j + 1) = i + 1 + j := by omega
      simp only [Function.comp_apply, Nat.succ_eq_add_one, hj]
    · simp only [List.map_cons, hups, List.length_cons,
        List.range_succ_eq_map, List.map_map, Nat.add_zero]
      refine congrArg (fun l => ("masks", individualFilename env.timestamp i) :: l) ?_
      refine congrArg (fun g => List.map g (List.range rest.length)) ?_
      funext j
      have hj : i + (j + 1) = i + 1 + j := by omega
      simp only [Function.comp_apply, Nat.succ_eq_add_one, hj]

/-- Claim C3: on a successful `/get-segments` request, the response's
`combined_mask` and every element of `individual_masks` are public URLs of
objects re-uploaded to the `masks` bucket (one upload per external mask),
`individual_masks` has exactly one URL per mask of the Segmind `masks`
array, in order (an absent array yields the empty list), and — whenever the
bucket's public URLs differ from Segmind's URLs — none of them is an
original Segmind URL. -/
theorem get_segments_success_response (env : SegEnv)
    (imageUrl b64 combinedSrc : String) (data : SegmindData)
    (hurl : truthyStr env.currentImageUrl = some imageUrl)
    (himg : env.fetchImage imageUrl = .ok b64)
    (hseg : env.segmind ((truthyStr env.prompt).getD "object") b64 = .ok data)
    (hcomb : truthyStr data.combinedMask = some combinedSrc)
    (hbuf : ∀ u, ∃ b, env.fetchBuf u = .ok b)
    (hup : ∀ b f, env.uploadErr b f = none)
    (hfreshC : ∀ u ∈ combinedSrc :: data.masks.getD [],
        env.publicUrl "masks" (combinedFilename env.timestamp) ≠ u)
    (hfreshI : ∀ i < (data.masks.getD []).length,
        ∀ u ∈ combinedSrc :: data.masks.getD [],
        env.publicUrl "masks" (individualFilename env.timestamp i) ≠ u) :
    ((getSegmentsHandler env).1 =
      ⟨200, .result (env.publicUrl "masks" (combinedFilename env.timestamp))
        ((List.range (data.masks.getD []).length).map
          (fun i => env.publicUrl "masks" (individualFilename env.timestamp i)))⟩) ∧
    ((getSegmentsHandler env).2.uploads.map (fun u => (u.1, u.2.1)) =
      ("masks", combinedFilename env.timestamp) ::
        (List.range (data.masks.getD []).length).map
          (fun i => ("masks", individualFilename env.timestamp i))) ∧
    (∀ v ∈ (List.range (data.masks.getD []).length).map
        (fun i => env.publicUrl "masks" (individualFilename env.timestamp i)),
      v ∉ data.masks.getD []) ∧
    env.publicUrl "masks" (combinedFilename env.timestamp) ≠ combinedSrc := by
  have himg2 : imageUrlToBase64 env imageUrl = .ok b64 := by
    simp [imageUrlToBase64, himg]
  obtain ⟨cbuf, hcbuf⟩ := hbuf combinedSrc
  obtain ⟨ups, hpm, hups⟩ := processMasks_all_ok env hbuf hup (data.masks.getD []) 0
  have hzero :
      (fun j => env.publicUrl "masks" (individualFilename env.timestamp (0 + j))) =
      (fun j => env.publicUrl "masks" (individualFilename env.timestamp j)) := by
    funext j
    rw [Nat.zero_add]
  have hzero2 :
      (fun j => (("masks", individualFilename env.timestamp (0 + j)) : String × String)) =
      (fun j => ("masks", individualFilename env.timestamp j)) := by
    funext j
    rw [Nat.zero_add]
  rw [hzero] at hpm
  rw [hzero2] at hups
  have hrun : getSegmentsHandler env =
      (⟨200, .result (env.publicUrl "masks" (combinedFilename env.timestamp))
        ((List.range (data.masks.getD []).length).map
          (fun i => env.publicUrl "masks" (individualFilename env.timestamp i)))⟩,
       { imageFetches := [imageUrl]
       , segmindPrompt := some ((truthyStr env.prompt).getD "object")
       , bufFetches := combinedSrc :: data.masks.getD []
       , uploads := ("masks", combinedFilename env.timestamp, cbuf) :: ups }) := by
    simp only [getSegmentsHandler, hurl, himg2, hseg, hcomb, hcbuf,
      hup "masks" (combinedFilename env.timestamp), hpm]
  refine ⟨?_, ?_, ?_, ?_⟩
  · rw [hrun]
  · rw [hrun]
    simp only [List.map_cons, hups]
  · intro v hv hmem
    rw [List.mem_map] at hv
    obtain ⟨j, hj, hveq⟩ := hv
    exact hfreshI j (List.mem_range.mp hj) v (List.mem_cons_of_mem _ hmem) hveq
  · exact hfreshC combinedSrc (List.mem_cons_self _ _)

/-- A concrete `/get-segments` environment for the witnesses: Segmind returns
a combined mask and two individual masks, every download and upload
succeeds. -/
def segEnvW : SegEnv :=
  { currentImageUrl := some "https://img.example/generated_1.webp"
  , prompt := some "car"
  , fetchImage := fun u => .ok ("b64:" ++ u)
  , segmind := fun _ _ => .ok
      { combinedMask := some "https://segmind.example/c.png"
      , masks := some ["https://segmind.example/m0.png",
                       "https://segmind.example/m1.png"] }
  , fetchBuf := fun u => .ok ("bytes:" ++ u)
  , uploadErr := fun _ _ => none
  , publicUrl := fun bucket filename =>
      "https://supabase.example/" ++ bucket ++ "/" ++ filename
  , timestamp := 5 }

/-- Witness for C3 at the concrete environment: both masks are re-uploaded
and the response carries only Supabase `masks`-bucket URLs. -/
theorem get_segments_success_response_witness :
    (getSegmentsHandler segEnvW).1 =
      ⟨200, .result "https://supabase.example/masks/mask_combined_5.png"
        ["https://supabase.example/masks/mask_individual_5_0.png",
         "https://supabase.example/masks/mask_individual_5_1.png"]⟩ ∧
    "https://supabase.example/masks/mask_combined_5.png" ≠
      "https://segmind.example/c.png" := by
  have h := get_segments_success_response segEnvW
    "https://img.example/generated_1.webp"
    ("b64:" ++ "https://img.example/generated_1.webp")
    "https://segmind.example/c.png"
    { combinedMask := some "https://segmind.example/c.png"
    , masks := some ["https://segmind.example/m0.png",
                     "https://segmind.example/m1.png"] }
    rfl rfl rfl rfl (fun u => ⟨"bytes:" ++ u, rfl⟩) (fun _ _ => rfl)
    (by decide) (by decide)
  constructor
  · rw [h.1]
    rfl
  · exact h.2.2.2

/-- Claim C9: a `/get-segments` request without a (truthy) `currentImageUrl`
is answered 500 with `{ error: "Failed to analyze image segments", details:
"No image URL provided" }` and performs no external call and no upload; and
whenever the Segmind call is reached with no `prompt` in the body, the
prompt sent is `"object"`. -/
theorem get_segments_missing_url_and_default_prompt (env : SegEnv) :
    (truthyStr env.currentImageUrl = none →
      getSegmentsHandler env =
        (⟨500, .failed "Failed to analyze image segments" "No image URL provided"⟩,
         emptySegTrace)) ∧
    (∀ imageUrl b64, truthyStr env.currentImageUrl = some imageUrl →
      env.fetchImage imageUrl = .ok b64 → env.prompt = none →
      (getSegmentsHandler env).2.segmindPrompt = some "object") := by
  constructor
  · intro h
    simp only [getSegmentsHandler, h, segFailure]
  · intro imageUrl b64 hurl himg hprompt
    have himg2 : imageUrlToBase64 env imageUrl = .ok b64 := by
      simp [imageUrlToBase64, himg]
    have hp : (truthyStr env.prompt).getD "object" = "object" := by
      rw [hprompt]
      rfl
    simp only [getSegmentsHandler, hurl, himg2, hp]
    repeat' split
    all_goals rfl

/-- A `/get-segments` environment whose request body has no image URL. -/
def segEnvNoUrl : SegEnv :=
  { segEnvW with currentImageUrl := none }

/-- A `/get-segments` environment whose request body has no prompt. -/
def segEnvNoPrompt : SegEnv :=
  { segEnvW with prompt := none }

/-- Witness for C9: the missing-URL request yields the 500 error with an
empty trace, and the prompt-less request calls Segmind with `"object"`. -/
theorem get_segments_missing_url_and_default_prompt_witness :
    getSegmentsHandler segEnvNoUrl =
      (⟨500, .failed "Failed to analyze image segments" "No image URL provided"⟩,
       emptySegTrace) ∧
    (getSegmentsHandler segEnvNoPrompt).2.segmindPrompt = some "object" :=
  ⟨(get_segments_missing_url_and_default_prompt segEnvNoUrl).1 rfl,
   (get_segments_missing_url_and_default_prompt segEnvNoPrompt).2
     "https://img.example/generated_1.webp"
     ("b64:" ++ "https://img.example/generated_1.webp") rfl rfl rfl⟩

/-! ## ToolPanel (client/components/ToolPanel.jsx) -/

/-- The parsed `arguments` of a function call as used by the tool panel's
`create_image_mask` branch: the image-URL argument and the prompt. -/
structure CallArgs where
  currentImageUrl : Option String
  prompt : Option String
deriving DecidableEq, Repr

/-- A `function_call` item of a `response.done` event's output. -/
structure FunctionCall where
  name : String
  arguments : CallArgs
deriving DecidableEq, Repr

/-- The `useState` state of `ToolPanel`. -/
structure PanelState where
  functionAdded : Bool
  functionCallOutput : Option FunctionCall
  currentImageUrl : Option String
  error : Option String
deriving DecidableEq, Repr

/-- The initial values of the four `useState` hooks. -/
def initialPanelState : PanelState :=
  { functionAdded := false
  , functionCallOutput := none
  , currentImageUrl := none
  , error := none }

/-- The `response.done` branch of the `useEffect`, per `function_call`
output: clear `functionCallOutput`, then dispatch on the tool name.
`genImageResult` is the settled outcome of the `generateImage` fetch (the
new image URL, or the error message set by its failure paths); for
`create_image_mask`, a falsy tracked `currentImageUrl` drops the call
(`console.error` + `return`), otherwise the call's arguments are replaced by
`{ currentImageUrl, prompt }` with the tracked URL. -/
def handleFunctionCallOutput (genImageResult : Except String String)
    (st : PanelState) (output : FunctionCall) : PanelState :=
  let st1 := { st with functionCallOutput := none }
  if output.name = "generate_image" then
    match genImageResult with
    | .ok url =>
      { st1 with currentImageUrl := some url, functionCallOutput := some output }
    | .error e =>
      { st1 with error := some e, functionCallOutput := some output }
  else if output.name = "create_image_mask" then
    match truthyStr st1.currentImageUrl with
    | none => st1
    | some url =>
      let newArgs : CallArgs :=
        { currentImageUrl := some url, prompt := output.arguments.prompt }
      { st1 with functionCallOutput := some { output with arguments := newArgs } }
  else
    { st1 with functionCallOutput := some output }

/-- The `session.created` branch of the `useEffect`: send the `sessionUpdate`
tool registration unless it was already sent.  Returns the new state and
whether the registration was sent. -/
def sessionCreatedUpdate (st : PanelState) : PanelState × Bool :=
  if st.functionAdded then (st, false)
  else ({ st with functionAdded := true }, true)

/-- The reset `useEffect`: when the session is inactive, all four state
hooks are set back to their initial values. -/
def resetEffect (isSessionActive : Bool) (st : PanelState) : PanelState :=
  if isSessionActive then st
  else initialPanelState

/-- What the `ToolPanel` section renders. -/
inductive PanelView where
  | startSessionMsg
  | askMsg
  | outputView (fc : FunctionCall) (img : Option String) (err : Option String)
deriving DecidableEq, Repr

/-- The `ToolPanel` render: the start-session prompt when inactive,
otherwise the ask prompt or the `FunctionCallOutput` (which reads the
tracked image URL and error). -/
def renderToolPanel (isSessionActive : Bool) (st : PanelState) : PanelView :=
  if isSessionActive then
    match st.functionCallOutput with
    | some fc => .outputView fc st.currentImageUrl st.error
    | none => .askMsg
  else
    .startSessionMsg

/-- Claim C7: a `create_image_mask` function call is handled against the
tracked `currentImageUrl`: with no generated image the call is dropped and
no tool output is set; with a tracked image the tool output is the call
with its image-URL argument overwritten by the tracked URL (the prompt kept). -/
theorem create_image_mask_uses_current_image
    (genImageResult : Except String String) (st : PanelState)
    (output : FunctionCall)
    (hname : output.name = "create_image_mask") :
    (truthyStr st.currentImageUrl = none →
      (handleFunctionCallOutput genImageResult st output).functionCallOutput = none ∧
      handleFunctionCallOutput genImageResult st output =
        { st with functionCallOutput := none }) ∧
    (∀ url, truthyStr st.currentImageUrl = some url →
      (handleFunctionCallOutput genImageResult st output).functionCallOutput =
        some { name := output.name
             , arguments := { currentImageUrl := some url
                            , prompt := output.arguments.prompt } }) := by
  have hne : output.name ≠ "generate_image" := by
    rw [hname]
    decide
  constructor
  · intro h
    simp only [handleFunctionCallOutput, if_neg hne, hname, if_pos rfl, h]
    exact ⟨rfl, rfl⟩
  · intro url h
    simp [handleFunctionCallOutput, hname, h]

/-- A panel state with a previous tool output but no generated image. -/
def panelStateNoImg : PanelState :=
  { initialPanelState with functionCallOutput := some ⟨"display_color_palette", ⟨none, none⟩⟩ }

/-- A panel state tracking a generated image. -/
def panelStateWithImg : PanelState :=
  { initialPanelState with currentImageUrl := some "https://img.example/cur.webp" }

/-- Witness for C7: with no tracked image the mask call is dropped; with a
tracked image its image-URL argument is overwritten. -/
theorem create_image_mask_uses_current_image_witness :
    (handleFunctionCallOutput (.ok "unused") panelStateNoImg
      ⟨"create_image_mask", ⟨some "stale.png", some "car"⟩⟩).functionCallOutput
      = none ∧
    (handleFunctionCallOutput (.ok "unused") panelStateWithImg
      ⟨"create_image_mask", ⟨some "stale.png", some "car"⟩⟩).functionCallOutput
      = some ⟨"create_image_mask",
              ⟨some "https://img.example/cur.webp", some "car"⟩⟩ :=
  ⟨((create_image_mask_uses_current_image (.ok "unused") panelStateNoImg
      ⟨"create_image_mask", ⟨some "stale.png", some "car"⟩⟩ rfl).1 rfl).1,
   (create_image_mask_uses_current_image (.ok "unused") panelStateWithImg
      ⟨"create_image_mask", ⟨some "stale.png", some "car"⟩⟩ rfl).2
      "https://img.example/cur.webp" rfl⟩

/-- Claim C10: whenever the session is inactive the panel state is reset to
its initial values, the render shows only the start-session message (so no
tool output or image URL of the previous session is rendered), and the next
`session.created` event re-sends the tool registration. -/
theorem tool_panel_reset_on_session_end (st : PanelState) :
    resetEffect false st = initialPanelState ∧
    renderToolPanel false (resetEffect false st) = .startSessionMsg ∧
    (sessionCreatedUpdate (resetEffect false st)).2 = true ∧
    (sessionCreatedUpdate (resetEffect false st)).1.functionAdded = true := by
  exact ⟨rfl, rfl, rfl, rfl⟩

/-! ## Route dispatch and the edit-image flow -/

/-- HTTP methods used by the app's routes. -/
inductive HttpMethod where
  | get
  | post
deriving DecidableEq, Repr

/-- The dedicated API routes registered in server.js (`app.get`/`app.post`),
in registration order.  The static middleware and the catch-all are modelled
by `routeRequest`. -/
def serverEndpoints : List (HttpMethod × String) :=
  [(.get, "/token"), (.post, "/generate-image"), (.post, "/get-segments")]

/-- Where a request lands in server.js's middleware stack. -/
inductive Route where
  | uploadsStatic
  | token
  | generateImage
  | getSegments
  | catchAll
deriving DecidableEq, Repr

/-- Structural character-by-character check that `s` begins with `pre`
(kernel-reducible, unlike the byte-based core operation). -/
def charsStart : List Char → List Char → Bool
  | [], _ => true
  | _ :: _, [] => false
  | a :: as, b :: bs => a = b && charsStart as bs

/-- `s` begins with `pre`. -/
def strStarts (pre s : String) : Bool :=
  charsStart pre.data s.data

/-- Express dispatch over server.js's stack: the `/uploads` static
middleware, then the three API routes, then the `app.use("*")` catch-all
that serves the transformed React `index.html` (the Vite dev middleware
passes non-asset paths through). -/
def routeRequest (m : HttpMethod) (path : String) : Route :=
  if strStarts "/uploads/" path then .uploadsStatic
  else if m = .get ∧ path = "/token" then .token
  else if m = .post ∧ path = "/generate-image" then .generateImage
  else if m = .post ∧ path = "/get-segments" then .getSegments
  else .catchAll

/-- What the catch-all route responds: status 200 with the server-rendered
HTML page (`res.status(200).set({ "Content-Type": "text/html" }).end(html)`). -/
structure CatchAllResponse where
  status : Nat
  contentType : String
deriving DecidableEq, Repr

/-- The catch-all's response shape. -/
def catchAllResponse : CatchAllResponse := ⟨200, "text/html"⟩

/-- A tool of the `sessionUpdate` registration: its name and required
parameters. -/
structure ToolDef where
  name : String
  required : List String
deriving DecidableEq, Repr

/-- The `session.tools` array of the `sessionUpdate` event sent by
`ToolPanel` on `session.created`. -/
def sessionUpdateTools : List ToolDef :=
  [⟨"display_color_palette", ["theme", "colors"]⟩,
   ⟨"generate_image", ["prompt"]⟩,
   ⟨"edit_image", ["imageUrl", "prompt"]⟩,
   ⟨"create_image_mask", ["currentImageUrl", "prompt"]⟩]

/-- A segment as held by `ImageEditor`: its mask URL and description. -/
structure Segment where
  maskUrl : String
  description : String
deriving DecidableEq, Repr

/-- The request `ImageEditor.handleEdit` sends: a POST with body
`{ imageFile, mask, prompt }` to a path. -/
structure EditRequest where
  path : String
  imageFile : String
  mask : String
  prompt : String
deriving DecidableEq, Repr

/-- `ImageEditor.handleEdit`: with no selected segment it returns without a
request; otherwise it POSTs `{ imageFile: imageUrl, mask:
selectedSegment.maskUrl, prompt }` to `/edit-image`. -/
def handleEdit (imageUrl : String) (selectedSegment : Option Segment)
    (prompt : String) : Option EditRequest :=
  match selectedSegment with
  | none => none
  | some seg => some ⟨"/edit-image", imageUrl, seg.maskUrl, prompt⟩

/-- Counterexample for C4: the backend registers no `/edit-image` endpoint —
the concrete POST `/edit-image` request that `handleEdit` emits is dispatched
to the catch-all, and no registered route has that path — refuting the
claim that an edit request "is handled by a backend endpoint /edit-image
that returns the edited image's URL". -/
theorem edit_image_endpoint_missing :
    routeRequest .post "/edit-image" = .catchAll ∧
    (∀ e ∈ serverEndpoints, e.2 ≠ "/edit-image") ∧
    handleEdit "https://img.example/cur.webp"
      (some ⟨"https://img.example/mask0.png", "the car"⟩) "make it red" =
      some ⟨"/edit-image", "https://img.example/cur.webp",
            "https://img.example/mask0.png", "make it red"⟩ := by
  refine ⟨by decide, by decide, rfl⟩

/-- Claim C4 (amended): an `edit_image` tool is registered with the voice
session, and the frontend's `ImageEditor.handleEdit` submits the edit
request (image, mask, prompt) as POST `/edit-image`; but the backend defines
no `/edit-image` endpoint, so the request is dispatched to the catch-all
route, which answers with the HTML client page (status 200, `text/html`)
rather than an edited image's URL. -/
theorem edit_image_tool_registered_but_unrouted :
    (∃ t ∈ sessionUpdateTools,
      t.name = "edit_image" ∧ t.required = ["imageUrl", "prompt"]) ∧
    (∀ imageUrl seg prompt,
      handleEdit imageUrl (some seg) prompt =
        some ⟨"/edit-image", imageUrl, seg.maskUrl, prompt⟩) ∧
    routeRequest .post "/edit-image" = .catchAll ∧
    (∀ e ∈ serverEndpoints, e.2 ≠ "/edit-image") ∧
    catchAllResponse = ⟨200, "text/html"⟩ := by
  refine ⟨by decide, fun _ _ _ => rfl, by decide, by decide, rfl⟩
